import Mathlib

/-!
Verification development for the Rust code-generator application in
`src/src/main.rs`. Rust strings are modelled as lists of characters
(`Str`); the Rust standard-library string operations used by the program
(`split`, `trim`, `trim_end_matches`, `replace`, `split_whitespace`,
`contains`, `starts_with`, `ends_with`, `join`) are embedded as
executable functions on `Str` below. Character classification
(`is_uppercase`, `to_lowercase`, whitespace) is modelled with Lean's
ASCII `Char.isUpper`/`Char.toLower`/`Char.isWhitespace`, matching the
Rust behaviour on the ASCII identifiers the tool manipulates.
-/

namespace AutoSdk

/-- Rust strings modelled as lists of characters. -/
abbrev Str := List Char

/-- Embed a Lean string literal as a character list. -/
def lit (s : String) : Str := s.data

/-- Rust `str::contains` with a string pattern: the needle occurs as a
contiguous substring of the haystack. -/
def containsSub (needle : Str) : Str → Bool
  | [] => needle.isEmpty
  | c :: cs => needle.isPrefixOf (c :: cs) || containsSub needle cs

/-- Split a list at every character satisfying `p`, keeping empty pieces:
the semantics of Rust `str::split` with a single-char pattern when `p`
tests for that char. -/
def splitOnPred (p : Char → Bool) : Str → List Str
  | [] => [[]]
  | c :: cs =>
    match splitOnPred p cs with
    | [] => [[]]
    | w :: ws => if p c then [] :: w :: ws else (c :: w) :: ws

/-- Rust `str::split(sep)` for a single separator character. -/
def splitOnChar (sep : Char) (l : Str) : List Str :=
  splitOnPred (fun c => c == sep) l

/-- Rust `str::split_whitespace`: split on whitespace and drop the empty
pieces, yielding the whitespace-separated tokens. -/
def splitWhitespace (l : Str) : List Str :=
  (splitOnPred (fun c => c.isWhitespace) l).filter (fun w => !w.isEmpty)

/-- Drop leading whitespace characters. -/
def trimLeftStr : Str → Str
  | [] => []
  | c :: cs => if c.isWhitespace then trimLeftStr cs else c :: cs

/-- Rust `str::trim`: drop leading and trailing whitespace. -/
def trimStr (l : Str) : Str :=
  (trimLeftStr (trimLeftStr l).reverse).reverse

/-- Fuelled loop for `trimEndMatches`; the fuel bounds the number of
suffix removals, each of which removes at least one character. -/
def trimEndMatchesFuel (pat : Str) : Nat → Str → Str
  | 0, l => l
  | fuel + 1, l =>
    if !pat.isEmpty && pat.isSuffixOf l then
      trimEndMatchesFuel pat fuel (l.take (l.length - pat.length))
    else l

/-- Rust `str::trim_end_matches(pat)`: repeatedly remove the suffix `pat`
while it is present. -/
def trimEndMatches (pat : Str) (l : Str) : Str :=
  trimEndMatchesFuel pat l.length l

/-- Fuelled loop for `replaceAll`. -/
def replaceAllFuel (pat rep : Str) : Nat → Str → Str
  | 0, l => l
  | _fuel + 1, [] => []
  | fuel + 1, c :: cs =>
    if !pat.isEmpty && pat.isPrefixOf (c :: cs) then
      rep ++ replaceAllFuel pat rep fuel ((c :: cs).drop pat.length)
    else
      c :: replaceAllFuel pat rep fuel cs

/-- Rust `str::replace(pat, rep)`: replace every non-overlapping
occurrence of `pat`, scanning left to right (for non-empty `pat`). -/
def replaceAll (pat rep l : Str) : Str :=
  replaceAllFuel pat rep l.length l

/-- Rust `Vec::join(sep)` on a list of strings. -/
def joinSep (sep : Str) : List Str → Str
  | [] => []
  | [x] => x
  | x :: xs => x ++ sep ++ joinSep sep xs

/-- Rust `fn java_to_rust_naming` (main.rs line 1717), accumulator loop:
scan the characters; on each uppercase letter push an underscore (when
the output so far is non-empty) followed by the lower-cased letter;
copy every other character as-is. -/
def javaToRustNamingGo (result : Str) : Str → Str
  | [] => result
  | c :: cs =>
    if c.isUpper then
      javaToRustNamingGo (result ++ (if result.isEmpty then [] else ['_']) ++ [c.toLower]) cs
    else
      javaToRustNamingGo (result ++ [c]) cs

/-- Rust `fn java_to_rust_naming` (main.rs line 1717). -/
def java_to_rust_naming (javaName : Str) : Str :=
  javaToRustNamingGo [] javaName

/-- Rust `fn pascal_to_snake_case` (main.rs line 1735), accumulator loop;
the body is character-for-character the same as `java_to_rust_naming`. -/
def pascalToSnakeGo (result : Str) : Str → Str
  | [] => result
  | c :: cs =>
    if c.isUpper then
      pascalToSnakeGo (result ++ (if result.isEmpty then [] else ['_']) ++ [c.toLower]) cs
    else
      pascalToSnakeGo (result ++ [c]) cs

/-- Rust `fn pascal_to_snake_case` (main.rs line 1735). -/
def pascal_to_snake_case (pascalName : Str) : Str :=
  pascalToSnakeGo [] pascalName

/-- Structural form of the snake-case accumulator loop after the first
character has been emitted: every later uppercase letter contributes an
underscore plus its lower-cased form. Used to reason about
`pascal_to_snake_case`. -/
def snakeCore : Str → Str
  | [] => []
  | c :: cs => (if c.isUpper then ['_', c.toLower] else [c]) ++ snakeCore cs

/-- Capitalize the first character of a word: the per-segment step of
Rust `fn to_pascal_case` (main.rs line 1835). -/
def capitalizeFirst : Str → Str
  | [] => []
  | c :: cs => c.toUpper :: cs

/-- Rust `fn to_pascal_case` (main.rs line 1835): split on `_`,
capitalize each segment's first character, concatenate. -/
def to_pascal_case (snakeName : Str) : Str :=
  ((splitOnChar '_' snakeName).map capitalizeFirst).flatten

/-- Rust `fn convert_java_type_to_rust` (main.rs line 1797): map the fixed
scalar table of Java type spellings to Rust types, map an array suffix
`T[]` to `Vec<T>` with the owning element form, and pass every
unrecognized token through unchanged. -/
def convert_java_type_to_rust (javaType : Str) : Str :=
  let jt := trimStr javaType
  if (lit "[]").isSuffixOf jt then
    let baseType := trimStr (trimEndMatches (lit "[]") jt)
    let rustBaseType :=
      if baseType = lit "String" then lit "String"
      else if baseType = lit "int" then lit "i32"
      else if baseType = lit "long" then lit "i64"
      else if baseType = lit "short" then lit "i16"
      else if baseType = lit "byte" then lit "i8"
      else if baseType = lit "boolean" then lit "bool"
      else if baseType = lit "float" then lit "f32"
      else if baseType = lit "double" then lit "f64"
      else if baseType = lit "char" then lit "char"
      else baseType
    lit "Vec<" ++ rustBaseType ++ lit ">"
  else
    if jt = lit "String" then lit "&str"
    else if jt = lit "int" then lit "i32"
    else if jt = lit "long" then lit "i64"
    else if jt = lit "short" then lit "i16"
    else if jt = lit "byte" then lit "i8"
    else if jt = lit "boolean" then lit "bool"
    else if jt = lit "float" then lit "f32"
    else if jt = lit "double" then lit "f64"
    else if jt = lit "char" then lit "char"
    else jt

/-- Rust `fn convert_java_params_to_rust` (main.rs line 1753): per
comma-separated segment, strip `final`, take the last whitespace token as
the variable name and the concatenation of the earlier tokens as the Java
type, map both, and emit `name: Type`; empty and single-token segments
are dropped. -/
def convert_java_params_to_rust (javaParams : Str) : Str :=
  joinSep (lit ", ")
    ((splitOnChar ',' javaParams).filterMap (fun param =>
      let trimmed := trimStr (trimEndMatches [','] (trimStr param))
      if trimmed.isEmpty then none
      else
        let withoutFinal := replaceAll (lit "final ") [] trimmed
        let parts := splitWhitespace withoutFinal
        if parts.isEmpty then none
        else
          let varName := trimEndMatches [','] (parts.getLastD [])
          if parts.length = 1 then none
          else
            let javaType := (parts.take (parts.length - 1)).flatten
            let rustType := convert_java_type_to_rust javaType
            let rustVarName := java_to_rust_naming varName
            some (rustVarName ++ lit ": " ++ rustType)))

/-- Rust `enum OperationType` (main.rs line 21). -/
inductive OperationType where
  | Database
  | Network
  deriving DecidableEq

/-- Rust `struct CodeGenerator` (main.rs line 39): the application state.
The nine `text_editor::Content` fields are modelled by the text they
hold. -/
structure CodeGenerator where
  project_path : Str
  function_name : Str
  function_params : Str
  callback_return_type : Str
  request_body_name : Str
  request_file_name : Str
  operation_type : Option OperationType
  pass_params_to_request : Bool
  generate_db_functions : Bool
  engine_sync_content : Str
  engine_async_content : Str
  module_content : Str
  request_builder_content : Str
  request_struct_content : Str
  test_method_content : Str
  db_agent_content : Str
  db_worker_content : Str
  db_sqlite_content : Str
  status_message : Str
  deriving DecidableEq

/-- Rust `enum Message` (main.rs line 61), restricted to the messages
that act on the generator state; the clipboard-copy and text-editor
messages touch only the excluded presentation layer. -/
inductive Message where
  | ProjectPathChanged (path : Str)
  | FunctionNameChanged (name : Str)
  | FunctionParamsChanged (params : Str)
  | CallbackReturnTypeChanged (returnType : Str)
  | RequestBodyNameChanged (name : Str)
  | RequestFileNameChanged (name : Str)
  | OperationTypeSelected (opType : OperationType)
  | TogglePassParamsToRequest (enabled : Bool)
  | ToggleGenerateDbFunctions (enabled : Bool)
  | GenerateCode
  | ClearAll

/-- Rust `impl Default for CodeGenerator` (main.rs line 94). -/
def defaultGen : CodeGenerator where
  project_path := lit "/Users/dxd/workspace/gitlab2/Rust/JQK-rust-universal-imsdk"
  function_name := []
  function_params := []
  callback_return_type := []
  request_body_name := []
  request_file_name := []
  operation_type := some OperationType.Network
  pass_params_to_request := false
  generate_db_functions := false
  engine_sync_content := []
  engine_async_content := []
  module_content := []
  request_builder_content := []
  request_struct_content := []
  test_method_content := []
  db_agent_content := []
  db_worker_content := []
  db_sqlite_content := []
  status_message := []

/-- Rust `fn normalize_param_name` (main.rs line 866): parameters of type
`ConversationType` or `DbConversationType` are renamed to `conv_type`. -/
def normalize_param_name (paramName paramType : Str) : Str :=
  if paramType = lit "ConversationType" ∨ paramType = lit "DbConversationType" then
    lit "conv_type"
  else
    paramName

/-- Rust `fn clean_params` (main.rs line 1273): strip surrounding
whitespace and trailing commas, then drop every `cb: CB` segment. -/
def clean_params (params : Str) : Str :=
  let cleaned := trimStr (trimEndMatches [','] (trimStr params))
  let parts := splitOnChar ',' cleaned
  let filtered_parts := parts.filter (fun param =>
    let trimmed := trimStr param
    !((lit "cb:").isPrefixOf trimmed) && !((lit "cb :").isPrefixOf trimmed))
  joinSep (lit ", ") filtered_parts

/-- Rust `fn normalize_params_for_request_builder` (main.rs line 876):
re-normalize the cleaned parameter list for the request builder,
mapping type `String` to `&str` and applying the `conv_type` rename. -/
def normalize_params_for_request_builder (g : CodeGenerator) : Str :=
  joinSep (lit ", ")
    ((splitOnChar ',' (clean_params g.function_params)).filterMap (fun param =>
      let trimmed := trimStr param
      if trimmed.isEmpty then none
      else
        match (splitOnChar ':' trimmed).map trimStr with
        | [param_name, pt] =>
          let param_type := trimStr (trimEndMatches [','] pt)
          let param_type := if param_type = lit "String" then lit "&str" else param_type
          let normalized_name := normalize_param_name param_name param_type
          some (normalized_name ++ lit ": " ++ param_type)
        | _ => some trimmed))

/-- Rust `fn generate_struct_fields` (main.rs line 1142): struct-field
declarations for the request struct; `&str` becomes owned `String`. -/
def generate_struct_fields (g : CodeGenerator) : Str :=
  let cleaned_params := clean_params g.function_params
  if cleaned_params.isEmpty then []
  else
    joinSep (lit "\n")
      ((splitOnChar ',' cleaned_params).filterMap (fun param =>
        let trimmed := trimStr param
        if trimmed.isEmpty then none
        else
          match (splitOnChar ':' trimmed).map trimStr with
          | [param_name, pt] =>
            let param_type := if pt = lit "&str" then lit "String" else pt
            let normalized_name := normalize_param_name param_name param_type
            some (lit "    " ++ normalized_name ++ lit ": " ++ param_type ++ lit ",")
          | _ => none))

/-- Rust `fn generate_new_params` (main.rs line 1178): constructor
parameters for the request struct. -/
def generate_new_params (g : CodeGenerator) : Str :=
  let cleaned_params := clean_params g.function_params
  if cleaned_params.isEmpty then []
  else
    joinSep (lit ", ")
      ((splitOnChar ',' cleaned_params).filterMap (fun param =>
        let trimmed := trimStr param
        if trimmed.isEmpty then none
        else
          match (splitOnChar ':' trimmed).map trimStr with
          | [param_name, param_type] =>
            let normalized_name := normalize_param_name param_name param_type
            some (normalized_name ++ lit ": " ++ param_type)
          | _ => some trimmed))

/-- Rust `fn generate_field_inits` (main.rs line 1210): field
initializers for the request struct; `&str` parameters are converted with
`.to_string()`. -/
def generate_field_inits (g : CodeGenerator) : Str :=
  let cleaned_params := clean_params g.function_params
  if cleaned_params.isEmpty then []
  else
    joinSep (lit ", ")
      ((splitOnChar ',' cleaned_params).filterMap (fun param =>
        let trimmed := trimStr param
        if trimmed.isEmpty then none
        else
          match (splitOnChar ':' trimmed).map trimStr with
          | [param_name, param_type] =>
            let normalized_name := normalize_param_name param_name param_type
            if param_type = lit "&str" then
              some (normalized_name ++ lit ": " ++ normalized_name ++ lit ".to_string()")
            else
              some normalized_name
          | _ => none))

/-- Rust `fn extract_param_names` (main.rs line 1246): call-site argument
names, with the `conv_type` rename on well-formed `name: type` pairs. -/
def extract_param_names (g : CodeGenerator) : Str :=
  joinSep (lit ", ")
    ((splitOnChar ',' (clean_params g.function_params)).filterMap (fun param =>
      let trimmed := trimStr param
      if trimmed.isEmpty then none
      else
        match (splitOnChar ':' trimmed).map trimStr with
        | [param_name, pt] =>
          let param_type := trimStr pt
          some (normalize_param_name param_name param_type)
        | _ => some (trimStr ((splitOnChar ':' trimmed).headD []))))

/-- Rust `fn extract_param_names_for_call` (main.rs line 1290): argument
names for a call; both branches of its `&str` test return the bare
name. -/
def extract_param_names_for_call (g : CodeGenerator) : Str :=
  joinSep (lit ", ")
    ((splitOnChar ',' (clean_params g.function_params)).filterMap (fun param =>
      let trimmed := trimStr param
      if trimmed.isEmpty then none
      else
        let name := trimStr ((splitOnChar ':' trimmed).headD [])
        if containsSub (lit "&str") trimmed then some name else some name))

/-- Rust `fn add_ref_to_str_params` (main.rs line 1311): declaration
parameter list with type `String` mapped to `&str` and the `conv_type`
rename applied. -/
def add_ref_to_str_params (g : CodeGenerator) : Str :=
  joinSep (lit ", ")
    ((splitOnChar ',' (clean_params g.function_params)).filterMap (fun param =>
      let trimmed := trimStr param
      if trimmed.isEmpty then none
      else
        match (splitOnChar ':' trimmed).map trimStr with
        | [param_name, pt] =>
          let param_type := trimStr pt
          let param_type := if param_type = lit "String" then lit "&str" else param_type
          let normalized_name := normalize_param_name param_name param_type
          some (normalized_name ++ lit ": " ++ param_type)
        | _ => some trimmed))

/-- Rust `fn generate_trace_params` (main.rs line 1343): trace-log
key/value pairs, using each parameter's raw first-piece name. -/
def generate_trace_params (g : CodeGenerator) : Str :=
  joinSep (lit ",\n            ")
    ((splitOnChar ',' (clean_params g.function_params)).filterMap (fun param =>
      let trimmed := trimStr param
      if trimmed.isEmpty then none
      else
        let name := trimStr ((splitOnChar ':' trimmed).headD [])
        some (lit "\"" ++ name ++ lit "\": " ++ name)))

/-- Rust `fn generate_str_to_string_conversions` (main.rs line 1360):
shadowing `let name = name.to_string();` bindings for `&str`
parameters. -/
def generate_str_to_string_conversions (g : CodeGenerator) : Str :=
  let conversions := (splitOnChar ',' (clean_params g.function_params)).filterMap (fun param =>
    let trimmed := trimStr param
    if trimmed.isEmpty then none
    else if containsSub (lit ": &str") trimmed then
      let param_name := trimStr ((splitOnChar ':' trimmed).headD [])
      some (lit "    let " ++ param_name ++ lit " = " ++ param_name ++ lit ".to_string();")
    else none)
  if conversions.isEmpty then [] else joinSep (lit "\n") conversions ++ lit "\n"

/-- Rust `fn extract_param_names_with_ref` (main.rs line 1390): call
arguments for the sync engine wrapper, prefixing `&` on `&str`
parameters; no `conv_type` rename is applied here. -/
def extract_param_names_with_ref (g : CodeGenerator) : Str :=
  joinSep (lit ", ")
    ((splitOnChar ',' (clean_params g.function_params)).filterMap (fun param =>
      let trimmed := trimStr param
      if trimmed.isEmpty then none
      else
        let param_name := trimStr ((splitOnChar ':' trimmed).headD [])
        if containsSub (lit ": &str") trimmed then some (lit "&" ++ param_name)
        else some param_name))

/-- Rust `fn extract_param_names_only` (main.rs line 1412): argument
names for the test method, with the `conv_type` rename. -/
def extract_param_names_only (g : CodeGenerator) : Str :=
  joinSep (lit ", ")
    ((splitOnChar ',' (clean_params g.function_params)).filterMap (fun param =>
      let trimmed := trimStr param
      if trimmed.isEmpty then none
      else
        match (splitOnChar ':' trimmed).map trimStr with
        | [param_name, param_type] =>
          some (normalize_param_name param_name param_type)
        | _ => some (trimStr ((splitOnChar ':' trimmed).headD []))))

/-- Rust `fn generate_default_value_for_type` (main.rs line 1478):
per-type literal defaults for test skeletons. -/
def generate_default_value_for_type (param_type : Str) : Str :=
  if param_type = lit "&str" then lit "\"test\""
  else if param_type = lit "String" then lit "\"test\".to_string()"
  else if param_type = lit "i32" ∨ param_type = lit "i64" ∨ param_type = lit "u32"
      ∨ param_type = lit "u64" ∨ param_type = lit "i8" ∨ param_type = lit "i16"
      ∨ param_type = lit "u8" ∨ param_type = lit "u16" ∨ param_type = lit "usize"
      ∨ param_type = lit "isize" then lit "0"
  else if param_type = lit "f32" ∨ param_type = lit "f64" then lit "0.0"
  else if param_type = lit "bool" then lit "false"
  else if param_type = lit "Vec<String>" then lit "vec![]"
  else if param_type = lit "Vec<i32>" ∨ param_type = lit "Vec<i64>"
      ∨ param_type = lit "Vec<u32>" ∨ param_type = lit "Vec<u64>" then lit "vec![]"
  else if (lit "Vec<").isPrefixOf param_type then lit "vec![]"
  else if (lit "Option<").isPrefixOf param_type then lit "None"
  else lit "Default::default()"

/-- Rust `fn generate_test_param_definitions` (main.rs line 1438):
`let name: type = default;` lines for the test method; the raw parameter
name is used, without the `conv_type` rename. -/
def generate_test_param_definitions (g : CodeGenerator) : Str :=
  let cleaned_params := clean_params g.function_params
  if cleaned_params.isEmpty then []
  else
    let definitions := (splitOnChar ',' cleaned_params).filterMap (fun param =>
      let trimmed := trimStr param
      if trimmed.isEmpty then none
      else
        match splitOnChar ':' trimmed with
        | [p0, p1] =>
          let param_name := trimStr p0
          let param_type := trimStr p1
          let default_value := generate_default_value_for_type param_type
          some (lit "let " ++ param_name ++ lit ": " ++ param_type ++ lit " = "
            ++ default_value ++ lit ";")
        | _ => none)
    if definitions.isEmpty then [] else joinSep (lit "\n        ") definitions

/-- Rust `fn generate_str_to_string_conversions_for_db_agent`
(main.rs line 1634): same shape as the sync-wrapper conversions. -/
def generate_str_to_string_conversions_for_db_agent (g : CodeGenerator) : Str :=
  let conversions := (splitOnChar ',' (clean_params g.function_params)).filterMap (fun param =>
    let trimmed := trimStr param
    if trimmed.isEmpty then none
    else if containsSub (lit ": &str") trimmed then
      let param_name := trimStr ((splitOnChar ':' trimmed).headD [])
      some (lit "    let " ++ param_name ++ lit " = " ++ param_name ++ lit ".to_string();")
    else none)
  if conversions.isEmpty then [] else joinSep (lit "\n") conversions ++ lit "\n"

/-- Rust `fn extract_param_names_for_db_worker_call` (main.rs line 1664):
call arguments for the db worker, suffixing `.as_str()` on `&str`
parameters; no `conv_type` rename is applied here. -/
def extract_param_names_for_db_worker_call (g : CodeGenerator) : Str :=
  joinSep (lit ", ")
    ((splitOnChar ',' (clean_params g.function_params)).filterMap (fun param =>
      let trimmed := trimStr param
      if trimmed.isEmpty then none
      else
        let param_name := trimStr ((splitOnChar ':' trimmed).headD [])
        if containsSub (lit ": &str") trimmed then some (param_name ++ lit ".as_str()")
        else some param_name))

/-- Rust `fn generate_str_conversions_in_function_body`
(main.rs line 1687): same shape as the db-agent conversions. -/
def generate_str_conversions_in_function_body (g : CodeGenerator) : Str :=
  let conversions := (splitOnChar ',' (clean_params g.function_params)).filterMap (fun param =>
    let trimmed := trimStr param
    if trimmed.isEmpty then none
    else if containsSub (lit ": &str") trimmed then
      let param_name := trimStr ((splitOnChar ':' trimmed).headD [])
      some (lit "    let " ++ param_name ++ lit " = " ++ param_name ++ lit ".to_string();")
    else none)
  if conversions.isEmpty then [] else joinSep (lit "\n") conversions ++ lit "\n"

/-- Rust `fn generate_engine_sync_function` (main.rs line 639). -/
def generate_engine_sync_function (g : CodeGenerator) (rust_function_name : Str) : Str :=
  let cb_type := if g.callback_return_type.isEmpty then lit "()" else g.callback_return_type
  let cleaned_params := clean_params g.function_params
  let str_conversions := generate_str_to_string_conversions g
  match g.operation_type with
  | some OperationType.Database =>
    lit "pub fn " ++ rust_function_name ++ lit "<CB>(&self, " ++ cleaned_params ++ lit ", cb: CB)\nwhere\n    CB: FnOnce(Result<" ++ cb_type ++ lit ", EngineError>) + Send + \x27static,\n\x7b\n    let engine = self.engine.clone();\n    let cb = self.cb_pool_once(cb);\n" ++ str_conversions ++ lit "\n    self.post(async move \x7b\n        let ret = engine." ++ rust_function_name ++ lit "(" ++ extract_param_names_with_ref g ++ lit ").await;\n        cb(ret);\n    \x7d);\n\x7d"
  | some OperationType.Network =>
    lit "pub fn " ++ rust_function_name ++ lit "<CB>(&self, " ++ cleaned_params ++ lit ", cb: CB)\nwhere\n    CB: FnOnce(Result<" ++ cb_type ++ lit ", EngineError>) + Send + \x27static,\n\x7b\n    let engine = self.engine.clone();\n    let callback = self.cb_pool_once(cb);\n" ++ str_conversions ++ lit "\n    self.post(async move \x7b\n        engine." ++ rust_function_name ++ lit "(" ++ extract_param_names_with_ref g ++ lit ", callback).await;\n    \x7d);\n\x7d"
  | none => []

/-- Rust `fn generate_engine_async_function` (main.rs line 697). -/
def generate_engine_async_function (g : CodeGenerator) (rust_function_name : Str) : Str :=
  let cb_type := if g.callback_return_type.isEmpty then lit "()" else g.callback_return_type
  let params_with_ref := add_ref_to_str_params g
  let param_names := extract_param_names g
  let ok_match_pattern :=
    if cb_type = lit "()" then lit "Ok(()) => \"\".to_string()"
    else lit "Ok(_) => \"\".to_string()"
  match g.operation_type with
  | some OperationType.Network =>
    lit "pub async fn " ++ rust_function_name ++ lit "<CB>(&self, " ++ params_with_ref ++ lit ", cb: CB)\nwhere\n    CB: FnOnce(Result<" ++ cb_type ++ lit ", EngineError>) + Send + \x27static,\n\x7b\n    let trace_id = self.ctx.logger().generate_trace_id();\n    trace_i_json!(self.ctx.logger(), \"P-" ++ rust_function_name ++ lit "-T\", trace_id);\n    let logger = self.ctx.logger().clone();\n    let cb = move |ret: Result<" ++ cb_type ++ lit ", EngineError>| \x7b\n        let str = match &ret \x7b\n            " ++ ok_match_pattern ++ lit ",\n            Err(e) => e.to_string(),\n        \x7d;\n        trace_i_json!(logger, \"P-" ++ rust_function_name ++ lit "-R\", trace_id, \"result\", &str);\n        cb(ret);\n    \x7d;\n    bugtags::" ++ rust_function_name ++ lit "(&self.ctx, " ++ param_names ++ lit ", cb).await;\n\x7d"
  | some OperationType.Database =>
    lit "pub async fn " ++ rust_function_name ++ lit "(&self, " ++ params_with_ref ++ lit ") -> Result<" ++ cb_type ++ lit ", EngineError> \x7b\n    let trace_id = self.ctx.logger().generate_trace_id();\n    trace_i_json!(self.ctx.logger(), \"P-" ++ rust_function_name ++ lit "-T\", trace_id);\n    let ret = bugtags::" ++ rust_function_name ++ lit "(&self.ctx, " ++ param_names ++ lit ").await;\n    let str = match &ret \x7b\n        Ok(_) => \"\".to_string(),\n        Err(e) => e.to_string(),\n    \x7d;\n    trace_i_json!(self.ctx.logger(), \"P-" ++ rust_function_name ++ lit "-R\", trace_id, \"result\", str);\n    ret\n\x7d"
  | none => []

/-- Rust `fn generate_module_function` (main.rs line 771). -/
def generate_module_function (g : CodeGenerator) (rust_function_name : Str) : Str :=
  let cb_type := if g.callback_return_type.isEmpty then lit "()" else g.callback_return_type
  let params_with_ref := add_ref_to_str_params g
  let param_names := extract_param_names g
  match g.operation_type with
  | some OperationType.Network =>
    let build_params := if param_names.isEmpty then lit "cb" else param_names ++ lit ", cb"
    lit "pub(crate) async fn " ++ rust_function_name ++ lit "<CB>(\n    ctx: &Arc<EngineContext>,\n    " ++ params_with_ref ++ lit ",\n    cb: CB,\n)\nwhere\n    CB: FnOnce(Result<" ++ cb_type ++ lit ", EngineError>) + Send + \x27static,\n\x7b\n    let query = ctx\n        .request_builder()\n        .build_" ++ rust_function_name ++ lit "_request(" ++ build_params ++ lit ");\n    ctx.send_query(query).await;\n\x7d"
  | some OperationType.Database =>
    lit "pub(crate) async fn " ++ rust_function_name ++ lit "(\n    ctx: &Arc<EngineContext>,\n    " ++ params_with_ref ++ lit ",\n) -> Result<" ++ cb_type ++ lit ", EngineError> \x7b\n    ctx.db_agent()\n        ." ++ rust_function_name ++ lit "(" ++ param_names ++ lit ")\n        .await\n\x7d"
  | none => []

/-- Rust `fn generate_request_builder_function` (main.rs line 824):
returns the empty string when `request_body_name` is empty. -/
def generate_request_builder_function (g : CodeGenerator) (rust_function_name : Str) : Str :=
  let cb_type := if g.callback_return_type.isEmpty then lit "()" else g.callback_return_type
  let params_with_ref := normalize_params_for_request_builder g
  if g.request_body_name.isEmpty then []
  else
    let pb_request_name := lit "Pb" ++ g.request_body_name
    let request_name := g.request_body_name
    let build_function_name := lit "build_" ++ rust_function_name ++ lit "_request"
    lit "pub(crate) fn " ++ build_function_name ++ lit "<CB>(\n    &self,\n    " ++ params_with_ref ++ lit ",\n    cb: CB,\n) -> RmtpQuery\nwhere\n    CB: FnOnce(Result<" ++ cb_type ++ lit ", EngineError>) + Send + \x27static,\n\x7b\n    let mut pb_req = " ++ pb_request_name ++ lit "::new();\n    let req = " ++ request_name ++ lit "::new(pb_req, cb);\n    self.build_query(req.get_method(), \"\", req.get_qos(), Box::new(req))\n\x7d"

/-- Rust `fn generate_request_struct` (main.rs line 909). -/
def generate_request_struct (g : CodeGenerator) : Str :=
  let cb_type := if g.callback_return_type.isEmpty then lit "()" else g.callback_return_type
  let pb_request_name := lit "Pb" ++ g.request_body_name
  let extras :=
    if g.pass_params_to_request then
      (generate_struct_fields g, generate_new_params g, generate_field_inits g)
    else ([], [], [])
  let extra_fields := extras.1
  let extra_new_params := extras.2.1
  let extra_field_inits := extras.2.2
  let struct_fields :=
    if extra_fields.isEmpty then
      lit "    pb_req: " ++ pb_request_name ++ lit ",\n    cb: CB,"
    else
      lit "    pb_req: " ++ pb_request_name ++ lit ",\n    cb: CB,\n" ++ extra_fields
  let new_params :=
    if extra_new_params.isEmpty then
      lit "pb_req: " ++ pb_request_name ++ lit ", cb: CB"
    else
      lit "pb_req: " ++ pb_request_name ++ lit ", cb: CB, " ++ extra_new_params
  let field_init :=
    if extra_field_inits.isEmpty then
      lit "Self \x7b pb_req, cb \x7d"
    else
      lit "Self \x7b pb_req, cb, " ++ extra_field_inits ++ lit " \x7d"
  lit "use crate::engine_context::EngineContext;\nuse crate::engine_def::\x7bEngineError\x7d;\nuse crate::rmtp::request::request_trait::Request;\nuse crate::rmtp::rmtp_def::RmtpQos;\nuse async_trait::async_trait;\nuse protobuf::Message;\nuse rust_universal_logger::err;\nuse std::sync::Arc;\n\npub(crate) struct " ++ g.request_body_name ++ lit "<CB>\nwhere\n    CB: FnOnce(Result<" ++ cb_type ++ lit ", EngineError>) + Send + \x27static,\n\x7b\n" ++ struct_fields ++ lit "\n\x7d\n\nimpl<CB> " ++ g.request_body_name ++ lit "<CB>\nwhere\n    CB: FnOnce(Result<" ++ cb_type ++ lit ", EngineError>) + Send + \x27static,\n\x7b\n    pub(crate) fn new(" ++ new_params ++ lit ") -> Self \x7b\n        " ++ field_init ++ lit "\n    \x7d\n\x7d\n\n#[async_trait]\nimpl<CB> Request for " ++ g.request_body_name ++ lit "<CB>\nwhere\n    CB: FnOnce(Result<" ++ cb_type ++ lit ", EngineError>) + Send + \x27static,\n\x7b\n    fn get_method(&self) -> String \x7b\n        \"\".to_string()\n    \x7d\n\n    fn get_qos(&self) -> RmtpQos \x7b\n        RmtpQos::QosAtLastOnce\n    \x7d\n\n    async fn deal_with_response(\n        self: Box<Self>,\n        ctx: &Arc<EngineContext>,\n        code: EngineError,\n        timestamp: i64,\n        msg_uid: String,\n        pb_data: Option<Vec<u8>>,\n    ) \x7b\n        if EngineError::Success != code \x7b\n            (self.cb)(Err(code));\n            return;\n        \x7d\n\n        let pb_data = match pb_data \x7b\n            Some(pb_data) => pb_data,\n            None => return (self.cb)(Err(err!(EngineError::NetDataParserFailed))),\n        \x7d;\n\n        // if EngineError::Success == code \x7b\n        //     (self.cb)(Ok(()));\n        // \x7d else \x7b\n        //     (self.cb)(Err(code));\n        // \x7d\n        \n        // TODO: 解析响应数据\n        // let ret = ...;\n        // (self.cb)(Ok(ret));\n    \x7d\n\n    fn get_pb_data(&self) -> Vec<u8> \x7b\n        self.pb_req.write_to_bytes().unwrap_or_default()\n    \x7d\n\x7d"

/-- Rust `fn generate_test_method` (main.rs line 1037). -/
def generate_test_method (g : CodeGenerator) (rust_function_name : Str) : Str :=
  let param_definitions := generate_test_param_definitions g
  let param_names := extract_param_names_only g
  match g.operation_type with
  | some OperationType.Database =>
    let param_section :=
      if !param_definitions.isEmpty then param_definitions ++ lit "\n        " else []
    lit "#[test]\nfn " ++ rust_function_name ++ lit "() \x7b\n    SHARED_RUNTIME.block_on(async \x7b\n        const ROOM_NAME: &str = \"test_room\";\n        let server_api = ServerApi::new();\n        if !server_api.is_chatroom_exist(ROOM_NAME).await \x7b\n            server_api.create_chatroom(ROOM_NAME).await;\n        \x7d\n        TESTER_A.connect().await.unwrap();\n        let engine = &TESTER_A.engine;\n        let (tx, rx) = oneshot::channel();\n        " ++ param_section ++ lit "let ret = engine." ++ rust_function_name ++ lit "(" ++ param_names ++ lit ").await;\n\n        println!(\"" ++ rust_function_name ++ lit ": \x7b:?\x7d\", ret);\n        assert!(ret.is_ok());\n        tx.send(()).unwrap();\n\n        match rx.await \x7b\n            Ok(_) => \x7b\x7d\n            Err(e) => \x7b\n                debug!(\"" ++ rust_function_name ++ lit " err: \x7b:?\x7d\", e);\n                assert!(false);\n            \x7d\n        \x7d\n    \x7d);\n\x7d"
  | some OperationType.Network =>
    let param_section :=
      if !param_definitions.isEmpty then param_definitions ++ lit "\n        " else []
    let call_code :=
      if param_names.isEmpty then
        param_section ++ lit "engine\n                ." ++ rust_function_name ++ lit "(|ret| \x7b\n                    println!(\"" ++ rust_function_name ++ lit ": \x7b:?\x7d\", ret);\n                    assert!(ret.is_ok());\n                    tx.send(()).unwrap();\n                \x7d)\n                .await;"
      else
        param_section ++ lit "engine\n                ." ++ rust_function_name ++ lit "(" ++ param_names ++ lit ", |ret| \x7b\n                    println!(\"" ++ rust_function_name ++ lit ": \x7b:?\x7d\", ret);\n                    assert!(ret.is_ok());\n                    tx.send(()).unwrap();\n                \x7d)\n                .await;"
    lit "#[test]\nfn " ++ rust_function_name ++ lit "() \x7b\n    SHARED_RUNTIME.block_on(async \x7b\n        const ROOM_NAME: &str = \"test_room\";\n        let server_api = ServerApi::new();\n        if !server_api.is_chatroom_exist(ROOM_NAME).await \x7b\n            server_api.create_chatroom(ROOM_NAME).await;\n        \x7d\n        TESTER_A.connect().await.unwrap();\n        let engine = &TESTER_A.engine;\n        let (tx, rx) = oneshot::channel();\n        " ++ call_code ++ lit "\n\n        match rx.await \x7b\n            Ok(_) => \x7b\x7d\n            Err(e) => \x7b\n                debug!(\"" ++ rust_function_name ++ lit " err: \x7b:?\x7d\", e);\n                assert!(false);\n            \x7d\n        \x7d\n    \x7d);\n\x7d"
  | none => []

/-- Rust `fn generate_db_agent_function` (main.rs line 1504): the blank
return type defaults to `bool` here, not `()`. -/
def generate_db_agent_function (g : CodeGenerator) (rust_function_name : Str) : Str :=
  let return_type := if g.callback_return_type.isEmpty then lit "bool" else g.callback_return_type
  let params_with_ref := add_ref_to_str_params g
  let param_names_for_call := extract_param_names_for_db_worker_call g
  let str_conversions := generate_str_to_string_conversions_for_db_agent g
  lit "pub async fn " ++ rust_function_name ++ lit "(\n    &self,\n    " ++ params_with_ref ++ lit ",\n) -> Result<" ++ return_type ++ lit ", EngineError> \x7b\n    // 1. 基础参数转化（需要将数据转为 db 模块的类型）\n" ++ str_conversions ++ lit "\n    // 2. 创建通道和 db_worker\n    let (resp_tx, resp_rx) = oneshot::channel();\n    let db_worker_clone = self.db_worker.clone();\n\n    // 3. 创建 task，调用 db_worker 对应方法。\n    // task 只负责调用简单的方法，复杂逻辑挪到 db 模块内\n    let task = Box::pin(async move \x7b\n        let db_worker = db_worker_clone.read().await;\n        let result = db_worker." ++ rust_function_name ++ lit "(" ++ param_names_for_call ++ lit ")\n            .await;\n        let _ = resp_tx.send(result);\n    \x7d);\n\n    // 4. 发任务给 db 模块执行\n    self.execute(task, resp_rx).await\n\x7d"

/-- Rust `fn generate_db_worker_function` (main.rs line 1550): the blank
return type defaults to `bool` here, not `()`. -/
def generate_db_worker_function (g : CodeGenerator) (rust_function_name : Str) : Str :=
  let return_type := if g.callback_return_type.isEmpty then lit "bool" else g.callback_return_type
  let params_with_ref := add_ref_to_str_params g
  let param_names := extract_param_names g
  lit "pub async fn " ++ rust_function_name ++ lit "(\n    &self,\n    " ++ params_with_ref ++ lit ",\n) -> Result<" ++ return_type ++ lit ", DbError> \x7b\n    log_db_i!(\"P-" ++ rust_function_name ++ lit "-T\");\n    let method_name = \"" ++ rust_function_name ++ lit "\";\n    let db_lock = self.db_sqlite_lock.read().await;\n    let db = db_lock\n        .as_ref()\n        .ok_or_else(|| self.callback_error(method_name, DbError::NotOpen))?;\n    let ret = db." ++ rust_function_name ++ lit "(" ++ param_names ++ lit ")\n        .await\n        .unwrap_or_else(|join_error| Err(DbErrorInfo::from_join_error(join_error)));\n    self.callback(method_name, ret)\n\x7d"

/-- Rust `fn generate_db_sqlite_function` (main.rs line 1587): the blank
return type defaults to `bool` here, not `()`. -/
def generate_db_sqlite_function (g : CodeGenerator) (rust_function_name : Str) : Str :=
  let return_type := if g.callback_return_type.isEmpty then lit "bool" else g.callback_return_type
  let params_with_ref := add_ref_to_str_params g
  let str_conversions := generate_str_conversions_in_function_body g
  lit "pub fn " ++ rust_function_name ++ lit "(\n    &self,\n    " ++ params_with_ref ++ lit ",\n) -> JoinHandle<Result<" ++ return_type ++ lit ", DbErrorInfo>> \x7b\n    let db_lock_clone = self.db_lock.clone();\n" ++ str_conversions ++ lit "\n    spawn_blocking(move || \x7b\n        let db = db_lock_clone\n                .read()\n                .map_err(|error| DbErrorInfo::from_lock(error))?;\n            let mut transaction_err_opt = None;\n            let transaction_ret = db.run_transaction(|_| \x7b\n\n                if let Err(exp) = ret \x7b\n                    transaction_err_opt = Some(DbErrorInfo::from(exp));\n                    return false;\n                \x7d\n\n                return true; //返回 false 回滚整个事务\n            \x7d);\n            if let Some(error) = transaction_err_opt \x7b\n                return Err(error);\n            \x7d\n            if let Err(exp) = transaction_ret \x7b\n                return Err(DbErrorInfo::from(exp));\n            \x7d\n            Ok(())\n    \x7d)\n\x7d"

/-- Rust `fn update` (main.rs line 121), restricted to the state-changing
messages. Incoming parameter strings that look Java-style (contain
`final ` or have a two-token colon-free comma segment) are converted on
entry; `GenerateCode` validates the two required fields and then fills
the nine artifacts; `ClearAll` resets the input fields (except the
project path) and empties the artifacts. -/
def update (g : CodeGenerator) : Message → CodeGenerator
  | Message.ProjectPathChanged path => { g with project_path := path }
  | Message.FunctionNameChanged name => { g with function_name := name }
  | Message.FunctionParamsChanged params =>
    if containsSub (lit "final ") params
        || (splitOnChar ',' params).any (fun p =>
          let trimmed := trimStr p
          decide (2 ≤ (splitWhitespace trimmed).length) && !(trimmed.contains ':')) then
      { g with function_params := convert_java_params_to_rust params }
    else
      { g with function_params := params }
  | Message.CallbackReturnTypeChanged returnType =>
    { g with callback_return_type := returnType }
  | Message.RequestBodyNameChanged name =>
    { g with request_body_name := name, request_file_name := pascal_to_snake_case name }
  | Message.RequestFileNameChanged name => { g with request_file_name := name }
  | Message.OperationTypeSelected opType => { g with operation_type := some opType }
  | Message.TogglePassParamsToRequest enabled => { g with pass_params_to_request := enabled }
  | Message.ToggleGenerateDbFunctions enabled => { g with generate_db_functions := enabled }
  | Message.GenerateCode =>
    if g.function_name.isEmpty then
      { g with status_message := lit "错误：函数名称不能为空！" }
    else if g.function_params.isEmpty then
      { g with status_message := lit "错误：函数参数不能为空！" }
    else
      let rust_function_name := java_to_rust_naming g.function_name
      let engine_sync_code := generate_engine_sync_function g rust_function_name
      let engine_async_code := generate_engine_async_function g rust_function_name
      let module_code := generate_module_function g rust_function_name
      let request_builder_code :=
        if g.operation_type = some OperationType.Network then
          generate_request_builder_function g rust_function_name
        else []
      let request_struct_code :=
        if !g.request_body_name.isEmpty then generate_request_struct g else []
      let test_method_code := generate_test_method g rust_function_name
      let db_codes :=
        if g.generate_db_functions then
          (generate_db_agent_function g rust_function_name,
           generate_db_worker_function g rust_function_name,
           generate_db_sqlite_function g rust_function_name)
        else ([], [], [])
      { g with
        engine_sync_content := engine_sync_code,
        engine_async_content := engine_async_code,
        module_content := module_code,
        request_builder_content := request_builder_code,
        request_struct_content := request_struct_code,
        test_method_content := test_method_code,
        db_agent_content := db_codes.1,
        db_worker_content := db_codes.2.1,
        db_sqlite_content := db_codes.2.2,
        status_message := lit "代码生成成功！" }
  | Message.ClearAll =>
    { g with
      function_name := [],
      function_params := [],
      callback_return_type := [],
      request_body_name := [],
      request_file_name := [],
      operation_type := some OperationType.Network,
      engine_sync_content := [],
      engine_async_content := [],
      module_content := [],
      request_builder_content := [],
      request_struct_content := [],
      test_method_content := [],
      db_agent_content := [],
      db_worker_content := [],
      db_sqlite_content := [],
      status_message := lit "已清空所有输入！" }

/-- The ASCII uppercase letters. -/
def upperChars : Str := lit "ABCDEFGHIJKLMNOPQRSTUVWXYZ"

/-- The ASCII letters and digits: the character set of the PascalCase
identifiers fed to the naming converter. -/
def alnumChars : Str := lit "ABCDEFGHIJKLMNOPQRSTUVWXYZabcdefghijklmnopqrstuvwxyz0123456789"

/-- Per-character facts used for the snake/Pascal round trip: an
uppercase letter lower-cases and upper-cases back to itself and never
lower-cases to an underscore; a non-uppercase alphanumeric character is
not an underscore. -/
def alnumFactB (c : Char) : Bool :=
  (!c.isUpper || ((c.toLower.toUpper == c) && (c.toLower != '_'))) &&
  (c.isUpper || (c != '_'))

/-- Example request: a `Database` operation with a request-body name set
and database generation off. -/
def exampleDatabaseGen : CodeGenerator :=
  { defaultGen with
    function_name := lit "setStatus",
    function_params := lit "status: i32",
    operation_type := some OperationType.Database,
    request_body_name := lit "SetStatusRequest" }

/-- Example state with both checkboxes set. -/
def exampleTogglesGen : CodeGenerator :=
  { defaultGen with pass_params_to_request := true, generate_db_functions := true }

/-- Example request generating database functions with a blank
callback-return type. -/
def exampleDbGen : CodeGenerator :=
  { defaultGen with
    function_name := lit "deleteAll",
    function_params := lit "user_id: &str",
    generate_db_functions := true }

/-- Example state whose single parameter is declared with type
`ConversationType`. -/
def exampleConvGen : CodeGenerator :=
  { defaultGen with function_params := lit "conv: ConversationType" }

/-- Example state with an empty function name but artifacts already
present from an earlier generation. -/
def exampleMissingNameGen : CodeGenerator :=
  { defaultGen with
    function_params := lit "status: i32",
    engine_sync_content := lit "old sync",
    request_struct_content := lit "old struct",
    db_agent_content := lit "old agent" }

/-- Example `Network` request with no request-body name. -/
def exampleNoBodyGen : CodeGenerator :=
  { defaultGen with
    function_name := lit "setStatus",
    function_params := lit "status: i32" }

/-! ## Supporting lemmas -/

theorem append_ne_nil_left (a b : Str) (h : a ≠ []) : a ++ b ≠ [] := by
  cases a with
  | nil => exact absurd rfl h
  | cons x xs => simp

theorem isEmpty_false_of_ne_nil (l : Str) (h : l ≠ []) : l.isEmpty = false := by
  cases l with
  | nil => exact absurd rfl h
  | cons a as => rfl

theorem snakeGo_acc (l : Str) : ∀ acc : Str, acc ≠ [] →
    pascalToSnakeGo acc l = acc ++ snakeCore l := by
  induction l with
  | nil => intro acc _; simp [pascalToSnakeGo, snakeCore]
  | cons c cs ih =>
    intro acc h
    have hne : acc.isEmpty = false := isEmpty_false_of_ne_nil acc h
    by_cases hu : c.isUpper = true
    · rw [pascalToSnakeGo, if_pos hu, hne]
      rw [ih _ (by simp)]
      simp [snakeCore, hu]
    · rw [pascalToSnakeGo, if_neg hu]
      rw [ih _ (by simp)]
      simp [snakeCore, hu]

theorem pascal_to_snake_cons (c : Char) (cs : Str) :
    pascal_to_snake_case (c :: cs)
      = (if c.isUpper then [c.toLower] else [c]) ++ snakeCore cs := by
  by_cases hu : c.isUpper = true
  · show pascalToSnakeGo [] (c :: cs) = _
    rw [pascalToSnakeGo, if_pos hu]
    simp only [List.isEmpty_nil, if_true, List.nil_append]
    rw [snakeGo_acc cs [c.toLower] (by simp)]
    simp [hu]
  · show pascalToSnakeGo [] (c :: cs) = _
    rw [pascalToSnakeGo, if_neg hu]
    simp only [List.nil_append]
    rw [snakeGo_acc cs [c] (by simp)]
    simp [hu]

theorem splitOnPred_cons (p : Char → Bool) (c : Char) (cs w : Str) (ws : List Str)
    (h : splitOnPred p cs = w :: ws) :
    splitOnPred p (c :: cs) = if p c then [] :: w :: ws else (c :: w) :: ws := by
  rw [splitOnPred, h]

theorem splitOnPred_ne_nil (p : Char → Bool) (l : Str) : splitOnPred p l ≠ [] := by
  induction l with
  | nil => simp [splitOnPred]
  | cons c cs ih =>
    rcases h : splitOnPred p cs with _ | ⟨w, ws⟩
    · exact absurd h ih
    · rw [splitOnPred_cons p c cs w ws h]
      by_cases hc : p c <;> simp [hc]

theorem generate_request_builder_ne_nil (g : CodeGenerator) (rfn : Str)
    (h : g.request_body_name ≠ []) : generate_request_builder_function g rfn ≠ [] := by
  simp only [generate_request_builder_function, isEmpty_false_of_ne_nil _ h,
    Bool.false_eq_true, if_false]
  repeat apply append_ne_nil_left
  decide

theorem generate_request_struct_ne_nil (g : CodeGenerator) :
    generate_request_struct g ≠ [] := by
  simp only [generate_request_struct]
  repeat apply append_ne_nil_left
  decide

theorem generate_db_agent_ne_nil (g : CodeGenerator) (rfn : Str) :
    generate_db_agent_function g rfn ≠ [] := by
  simp only [generate_db_agent_function]
  repeat apply append_ne_nil_left
  decide

theorem generate_db_worker_ne_nil (g : CodeGenerator) (rfn : Str) :
    generate_db_worker_function g rfn ≠ [] := by
  simp only [generate_db_worker_function]
  repeat apply append_ne_nil_left
  decide

theorem generate_db_sqlite_ne_nil (g : CodeGenerator) (rfn : Str) :
    generate_db_sqlite_function g rfn ≠ [] := by
  simp only [generate_db_sqlite_function]
  repeat apply append_ne_nil_left
  decide

/-! ## Claim theorems -/

/-- C8: `javaToSnakeCase` scans characters and, on each uppercase letter,
inserts `_` before the lower-cased letter exactly when the output so far
is non-empty (i.e. everywhere except on the very first character),
copying all other characters as-is; `deleteUltraGroupMessages` maps to
`delete_ultra_group_messages`, consecutive uppercase letters are not
collapsed (`HTTPServer` maps to `h_t_t_p_server`), and
`pascalToSnakeCase` computes the identical function. -/
theorem java_to_snake_case_spec :
    (∀ s : Str, java_to_rust_naming s = pascal_to_snake_case s) ∧
    (∀ c : Char, ∀ cs : Str, java_to_rust_naming (c :: cs)
      = (if c.isUpper then [c.toLower] else [c]) ++ snakeCore cs) ∧
    java_to_rust_naming (lit "deleteUltraGroupMessages") = lit "delete_ultra_group_messages" ∧
    java_to_rust_naming (lit "HTTPServer") = lit "h_t_t_p_server" := by
  have hsame : ∀ (l acc : Str), javaToRustNamingGo acc l = pascalToSnakeGo acc l := by
    intro l
    induction l with
    | nil => intro acc; rfl
    | cons c cs ih =>
      intro acc
      by_cases hu : c.isUpper = true
      · rw [javaToRustNamingGo, pascalToSnakeGo, if_pos hu, if_pos hu, ih]
      · rw [javaToRustNamingGo, pascalToSnakeGo, if_neg hu, if_neg hu, ih]
  refine ⟨fun s => hsame s [], ?_, by decide, by decide⟩
  intro c cs
  rw [show java_to_rust_naming (c :: cs) = pascal_to_snake_case (c :: cs) from hsame _ [],
    pascal_to_snake_cons]

/-- C2 (amended): the Clear action empties every text input field, resets
the operation type to `Network`, empties all nine artifacts and sets the
"cleared" status, while leaving the project path unchanged — but it also
leaves the two boolean flags `pass_params_to_request` and
`generate_db_functions` unchanged rather than resetting them. -/
theorem clear_all_spec (g : CodeGenerator) :
    (update g Message.ClearAll).function_name = [] ∧
    (update g Message.ClearAll).function_params = [] ∧
    (update g Message.ClearAll).callback_return_type = [] ∧
    (update g Message.ClearAll).request_body_name = [] ∧
    (update g Message.ClearAll).request_file_name = [] ∧
    (update g Message.ClearAll).operation_type = some OperationType.Network ∧
    (update g Message.ClearAll).project_path = g.project_path ∧
    (update g Message.ClearAll).pass_params_to_request = g.pass_params_to_request ∧
    (update g Message.ClearAll).generate_db_functions = g.generate_db_functions ∧
    (update g Message.ClearAll).engine_sync_content = [] ∧
    (update g Message.ClearAll).engine_async_content = [] ∧
    (update g Message.ClearAll).module_content = [] ∧
    (update g Message.ClearAll).request_builder_content = [] ∧
    (update g Message.ClearAll).request_struct_content = [] ∧
    (update g Message.ClearAll).test_method_content = [] ∧
    (update g Message.ClearAll).db_agent_content = [] ∧
    (update g Message.ClearAll).db_worker_content = [] ∧
    (update g Message.ClearAll).db_sqlite_content = [] ∧
    (update g Message.ClearAll).status_message = lit "已清空所有输入！" := by
  exact ⟨rfl, rfl, rfl, rfl, rfl, rfl, rfl, rfl, rfl, rfl, rfl, rfl, rfl, rfl, rfl, rfl,
    rfl, rfl, rfl⟩

/-- C2 counterexample: starting from a state with both boolean flags set,
the Clear action leaves `pass_params_to_request` and
`generate_db_functions` set to `true` instead of resetting them to their
default `false`, contradicting the claim that every input field except
the project path is reset. -/
theorem clear_all_keeps_toggles_cex :
    exampleTogglesGen.pass_params_to_request = true ∧
    exampleTogglesGen.generate_db_functions = true ∧
    (update exampleTogglesGen Message.ClearAll).pass_params_to_request = true ∧
    (update exampleTogglesGen Message.ClearAll).generate_db_functions = true :=
  ⟨rfl, rfl, rfl, rfl⟩

/-- C5: if the function name or the parameter string is empty, triggering
generation sets an error status and leaves all nine artifacts exactly as
they were. -/
theorem generate_validates_required_fields (g : CodeGenerator)
    (h : g.function_name = [] ∨ g.function_params = []) :
    ((update g Message.GenerateCode).status_message = lit "错误：函数名称不能为空！" ∨
     (update g Message.GenerateCode).status_message = lit "错误：函数参数不能为空！") ∧
    (update g Message.GenerateCode).engine_sync_content = g.engine_sync_content ∧
    (update g Message.GenerateCode).engine_async_content = g.engine_async_content ∧
    (update g Message.GenerateCode).module_content = g.module_content ∧
    (update g Message.GenerateCode).request_builder_content = g.request_builder_content ∧
    (update g Message.GenerateCode).request_struct_content = g.request_struct_content ∧
    (update g Message.GenerateCode).test_method_content = g.test_method_content ∧
    (update g Message.GenerateCode).db_agent_content = g.db_agent_content ∧
    (update g Message.GenerateCode).db_worker_content = g.db_worker_content ∧
    (update g Message.GenerateCode).db_sqlite_content = g.db_sqlite_content := by
  by_cases hn : g.function_name = []
  · simp [update, hn]
  · have he : g.function_name.isEmpty = false := isEmpty_false_of_ne_nil _ hn
    have hp : g.function_params = [] := h.resolve_left hn
    simp [update, he, hp]

/-- C5 witness: with an empty function name and previously generated
artifacts, generation reports an error and leaves the artifacts in
place. -/
theorem generate_validates_required_fields_witness :
    ((update exampleMissingNameGen Message.GenerateCode).status_message
        = lit "错误：函数名称不能为空！" ∨
     (update exampleMissingNameGen Message.GenerateCode).status_message
        = lit "错误：函数参数不能为空！") ∧
    (update exampleMissingNameGen Message.GenerateCode).engine_sync_content = lit "old sync" ∧
    (update exampleMissingNameGen Message.GenerateCode).request_struct_content
      = lit "old struct" ∧
    (update exampleMissingNameGen Message.GenerateCode).db_agent_content = lit "old agent" := by
  have h := generate_validates_required_fields exampleMissingNameGen (Or.inl rfl)
  exact ⟨h.1, h.2.1, h.2.2.2.2.2.1, h.2.2.2.2.2.2.2.1⟩

/-- C10: under `Network` with both required fields present but an empty
`request_body_name`, the request-builder artifact is the empty string,
because the builder generator returns empty when the request-body name is
empty even though the Network branch was selected. -/
theorem request_builder_empty_without_body (g : CodeGenerator)
    (h1 : g.function_name ≠ []) (h2 : g.function_params ≠ [])
    (h3 : g.operation_type = some OperationType.Network)
    (h4 : g.request_body_name = []) :
    (update g Message.GenerateCode).request_builder_content = [] := by
  simp [update, isEmpty_false_of_ne_nil _ h1, isEmpty_false_of_ne_nil _ h2, h3,
    generate_request_builder_function, h4]

/-- C10 witness: the concrete `Network` request with an empty
request-body name produces an empty request-builder artifact. -/
theorem request_builder_empty_without_body_witness :
    (update exampleNoBodyGen Message.GenerateCode).request_builder_content = [] :=
  request_builder_empty_without_body exampleNoBodyGen (by decide) (by decide) rfl rfl

/-- C1 counterexample: with `operation_type = Database` and a non-empty
`request_body_name`, generation still renders a non-empty
`request_struct` artifact, contradicting the claim that the request
artifacts are non-empty only under `Network` and that under `Database`
both request artifacts are empty. -/
theorem request_struct_renders_under_database_cex :
    exampleDatabaseGen.operation_type = some OperationType.Database ∧
    (update exampleDatabaseGen Message.GenerateCode).request_builder_content = [] ∧
    (update exampleDatabaseGen Message.GenerateCode).request_struct_content ≠ [] := by
  refine ⟨rfl, by decide, by decide⟩

/-- C1 (amended): for every generation request with non-empty function
name and parameter string, `request_builder` is non-empty exactly when
the operation type is `Network` and `request_body_name` is non-empty;
`request_struct` is non-empty exactly when `request_body_name` is
non-empty, independent of the operation type (in particular it renders
under `Database` too); and the three db artifacts are non-empty exactly
when `generate_db_functions` is set, independent of the operation
type. -/
theorem artifact_presence_spec (g : CodeGenerator)
    (h1 : g.function_name ≠ []) (h2 : g.function_params ≠ []) :
    ((update g Message.GenerateCode).request_builder_content ≠ [] ↔
      g.operation_type = some OperationType.Network ∧ g.request_body_name ≠ []) ∧
    ((update g Message.GenerateCode).request_struct_content ≠ [] ↔
      g.request_body_name ≠ []) ∧
    ((update g Message.GenerateCode).db_agent_content ≠ [] ↔
      g.generate_db_functions = true) ∧
    ((update g Message.GenerateCode).db_worker_content ≠ [] ↔
      g.generate_db_functions = true) ∧
    ((update g Message.GenerateCode).db_sqlite_content ≠ [] ↔
      g.generate_db_functions = true) := by
  have e1 := isEmpty_false_of_ne_nil _ h1
  have e2 := isEmpty_false_of_ne_nil _ h2
  simp only [update, e1, e2, Bool.false_eq_true, if_false]
  refine ⟨?_, ?_, ?_, ?_, ?_⟩
  · -- request_builder
    by_cases hop : g.operation_type = some OperationType.Network
    · rw [if_pos hop]
      by_cases hb : g.request_body_name = []
      · rw [show generate_request_builder_function g (java_to_rust_naming g.function_name) = []
            from by simp [generate_request_builder_function, hb]]
        simp [hb]
      · exact iff_of_true (generate_request_builder_ne_nil g _ hb) ⟨hop, hb⟩
    · rw [if_neg hop]
      simp [hop]
  · -- request_struct
    by_cases hb : g.request_body_name = []
    · rw [show (if !g.request_body_name.isEmpty then generate_request_struct g else []) = []
          from by simp [hb]]
      simp [hb]
    · rw [show (if !g.request_body_name.isEmpty then generate_request_struct g else [])
            = generate_request_struct g
          from by simp [isEmpty_false_of_ne_nil _ hb]]
      exact iff_of_true (generate_request_struct_ne_nil g) hb
  · -- db_agent
    by_cases hdb : g.generate_db_functions = true
    · rw [if_pos hdb]
      exact iff_of_true (generate_db_agent_ne_nil g _) hdb
    · rw [if_neg hdb]
      simp [hdb]
  · -- db_worker
    by_cases hdb : g.generate_db_functions = true
    · rw [if_pos hdb]
      exact iff_of_true (generate_db_worker_ne_nil g _) hdb
    · rw [if_neg hdb]
      simp [hdb]
  · -- db_sqlite
    by_cases hdb : g.generate_db_functions = true
    · rw [if_pos hdb]
      exact iff_of_true (generate_db_sqlite_ne_nil g _) hdb
    · rw [if_neg hdb]
      simp [hdb]

/-- C1 witness: on the concrete `Database` request with a request-body
name, the amended presence conditions evaluate as stated. -/
theorem artifact_presence_spec_witness :
    (update exampleDatabaseGen Message.GenerateCode).request_struct_content ≠ [] ∧
    ¬((update exampleDatabaseGen Message.GenerateCode).request_builder_content ≠ []) := by
  have h := artifact_presence_spec exampleDatabaseGen (by decide) (by decide)
  exact ⟨h.2.1.mpr (by decide), fun hc => by
    have := (h.1.mp hc).1
    simp [exampleDatabaseGen, defaultGen] at this⟩

set_option maxRecDepth 16000 in
/-- C3 counterexample: with a blank callback-return type, the generated
`db_agent` artifact uses `bool` as the default return type, not the unit
type `()` claimed for all nine generators. -/
theorem db_agent_blank_return_is_bool_cex :
    exampleDbGen.callback_return_type = [] ∧
    containsSub (lit "Result<bool, EngineError>")
      ((update exampleDbGen Message.GenerateCode).db_agent_content) = true ∧
    containsSub (lit "Result<(), EngineError>")
      ((update exampleDbGen Message.GenerateCode).db_agent_content) = false := by
  refine ⟨rfl, by decide, by decide⟩

/-- C3 (amended): when the return-type field is blank, the engine
wrappers, the module function, the request builder and the request
struct substitute the unit type `()` (each produces the same artifact as
with the field set to `()`); the three database generators instead
substitute `bool`; and the test-method generator does not use the
return type at all. -/
theorem blank_return_type_defaults (g : CodeGenerator) (rfn : Str)
    (h : g.callback_return_type = []) :
    generate_engine_sync_function g rfn
      = generate_engine_sync_function { g with callback_return_type := lit "()" } rfn ∧
    generate_engine_async_function g rfn
      = generate_engine_async_function { g with callback_return_type := lit "()" } rfn ∧
    generate_module_function g rfn
      = generate_module_function { g with callback_return_type := lit "()" } rfn ∧
    generate_request_builder_function g rfn
      = generate_request_builder_function { g with callback_return_type := lit "()" } rfn ∧
    generate_request_struct g
      = generate_request_struct { g with callback_return_type := lit "()" } ∧
    generate_db_agent_function g rfn
      = generate_db_agent_function { g with callback_return_type := lit "bool" } rfn ∧
    generate_db_worker_function g rfn
      = generate_db_worker_function { g with callback_return_type := lit "bool" } rfn ∧
    generate_db_sqlite_function g rfn
      = generate_db_sqlite_function { g with callback_return_type := lit "bool" } rfn ∧
    ∀ rt : Str, generate_test_method g rfn
      = generate_test_method { g with callback_return_type := rt } rfn := by
  have hu : (lit "()").isEmpty = false := by decide
  have hb : (lit "bool").isEmpty = false := by decide
  refine ⟨?_, ?_, ?_, ?_, ?_, ?_, ?_, ?_, ?_⟩
  · simp [generate_engine_sync_function, h, hu, clean_params,
      generate_str_to_string_conversions, extract_param_names_with_ref]
  · simp [generate_engine_async_function, h, hu, add_ref_to_str_params, extract_param_names]
  · simp [generate_module_function, h, hu, add_ref_to_str_params, extract_param_names]
  · simp [generate_request_builder_function, h, hu, normalize_params_for_request_builder]
  · simp [generate_request_struct, h, hu, generate_struct_fields, generate_new_params,
      generate_field_inits]
  · simp [generate_db_agent_function, h, hb, add_ref_to_str_params,
      extract_param_names_for_db_worker_call, generate_str_to_string_conversions_for_db_agent]
  · simp [generate_db_worker_function, h, hb, add_ref_to_str_params, extract_param_names]
  · simp [generate_db_sqlite_function, h, hb, add_ref_to_str_params,
      generate_str_conversions_in_function_body]
  · intro rt
    simp [generate_test_method, generate_test_param_definitions, extract_param_names_only,
      clean_params]

/-- C3 witness: on the concrete database request with a blank return
type, the `db_agent` generator produces the same artifact as with the
field set to `bool`. -/
theorem blank_return_type_defaults_witness :
    generate_db_agent_function exampleDbGen (lit "delete_all")
      = generate_db_agent_function
          { exampleDbGen with callback_return_type := lit "bool" } (lit "delete_all") :=
  (blank_return_type_defaults exampleDbGen (lit "delete_all") rfl).2.2.2.2.2.1

/-- C6: an incoming parameter string is converted as Java-style exactly
when it contains the literal `final ` or some comma-separated segment
has at least two whitespace-separated tokens and no `:` character, and
is passed through unmodified otherwise; in the Java-style case each
segment becomes `name: Type` with the type mapped and the name
snake-cased, a single-token segment is dropped silently, and
`final String userId, int count` converts to
`user_id: &str, count: i32`. -/
theorem java_style_params_spec (g : CodeGenerator) (p : Str) :
    ((containsSub (lit "final ") p = true ∨
      ∃ seg ∈ splitOnChar ',' p,
        2 ≤ (splitWhitespace (trimStr seg)).length ∧ (trimStr seg).contains ':' = false) →
      (update g (Message.FunctionParamsChanged p)).function_params
        = convert_java_params_to_rust p) ∧
    (¬(containsSub (lit "final ") p = true ∨
      ∃ seg ∈ splitOnChar ',' p,
        2 ≤ (splitWhitespace (trimStr seg)).length ∧ (trimStr seg).contains ':' = false) →
      (update g (Message.FunctionParamsChanged p)).function_params = p) ∧
    convert_java_params_to_rust (lit "final String userId, int count")
      = lit "user_id: &str, count: i32" ∧
    convert_java_params_to_rust (lit "justonename, int count") = lit "count: i32" := by
  refine ⟨?_, ?_, by decide, by decide⟩
  · intro h
    have hbool : (containsSub (lit "final ") p
        || (splitOnChar ',' p).any (fun q =>
          let trimmed := trimStr q
          decide (2 ≤ (splitWhitespace trimmed).length) && !(trimmed.contains ':'))) = true := by
      rcases h with h | ⟨seg, hseg, hlen, hcol⟩
      · simp [h]
      · have hcol' : ':' ∉ trimStr seg := by simpa using hcol
        simp only [Bool.or_eq_true, List.any_eq_true]
        refine Or.inr ⟨seg, hseg, ?_⟩
        simp [hlen, hcol']
    simp only [update]
    rw [hbool]
    simp
  · intro h
    have hA : containsSub (lit "final ") p = false := by
      cases hA2 : containsSub (lit "final ") p
      · rfl
      · exact absurd (Or.inl hA2) h
    have hbool : (containsSub (lit "final ") p
        || (splitOnChar ',' p).any (fun q =>
          let trimmed := trimStr q
          decide (2 ≤ (splitWhitespace trimmed).length) && !(trimmed.contains ':'))) = false := by
      rw [Bool.or_eq_false_iff]
      refine ⟨hA, ?_⟩
      cases hB : (splitOnChar ',' p).any (fun q =>
          let trimmed := trimStr q
          decide (2 ≤ (splitWhitespace trimmed).length) && !(trimmed.contains ':'))
      · rfl
      · rw [List.any_eq_true] at hB
        obtain ⟨seg, hseg, hcond⟩ := hB
        simp only [Bool.and_eq_true, decide_eq_true_eq, Bool.not_eq_true'] at hcond
        refine absurd (Or.inr ⟨seg, hseg, hcond.1, ?_⟩) h
        simpa using hcond.2
    simp only [update]
    rw [hbool]
    simp

/-- C6 witness: the Java-style example is detected and converted on
entry into the form state. -/
theorem java_style_params_spec_witness :
    (update defaultGen
        (Message.FunctionParamsChanged (lit "final String userId, int count"))).function_params
      = lit "user_id: &str, count: i32" := by
  have h := java_style_params_spec defaultGen (lit "final String userId, int count")
  rw [h.1 (Or.inl (by decide))]
  exact h.2.2.1

/-- C4 counterexample: for the single parameter `conv: ConversationType`,
the test default-value definitions, the trace pairs, the sync-wrapper
call-argument list and the db-worker call list all keep the original
name `conv`, while other derivations rename to `conv_type` — so the
override is not applied uniformly across every derived list. -/
theorem conv_type_not_uniform_cex :
    exampleConvGen.function_params = lit "conv: ConversationType" ∧
    generate_test_param_definitions exampleConvGen
      = lit "let conv: ConversationType = Default::default();" ∧
    generate_trace_params exampleConvGen = lit "\"conv\": conv" ∧
    extract_param_names_with_ref exampleConvGen = lit "conv" ∧
    extract_param_names_for_db_worker_call exampleConvGen = lit "conv" ∧
    extract_param_names exampleConvGen = lit "conv_type" := by
  exact ⟨rfl, by decide, by decide, by decide, by decide, by decide⟩

theorem trimLeftStr_length_le (l : Str) : (trimLeftStr l).length ≤ l.length := by
  induction l with
  | nil => exact Nat.le_refl _
  | cons c cs ih =>
    by_cases hw : c.isWhitespace = true
    · rw [trimLeftStr, if_pos hw]
      exact Nat.le_succ_of_le ih
    · rw [trimLeftStr, if_neg hw]

theorem trimLeftStr_eq_self_of_length (l : Str)
    (h : (trimLeftStr l).length = l.length) : trimLeftStr l = l := by
  cases l with
  | nil => rfl
  | cons c cs =>
    by_cases hw : c.isWhitespace = true
    · exfalso
      rw [trimLeftStr, if_pos hw] at h
      have hle := trimLeftStr_length_le cs
      simp only [List.length_cons] at h
      omega
    · rw [trimLeftStr, if_neg hw]

theorem trimLeftStr_of_head (l : Str)
    (h : ∀ c, l.head? = some c → c.isWhitespace = false) : trimLeftStr l = l := by
  cases l with
  | nil => rfl
  | cons c cs => rw [trimLeftStr, if_neg (by simp [h c rfl])]

theorem trimLeftStr_head_not_ws (l : Str) (h : trimLeftStr l = l) :
    ∀ c, l.head? = some c → c.isWhitespace = false := by
  intro c hc
  cases l with
  | nil => cases hc
  | cons a as =>
    obtain rfl : a = c := by simpa using hc
    by_contra hws
    have hws' : a.isWhitespace = true := by simpa using hws
    rw [trimLeftStr, if_pos hws'] at h
    have hle := trimLeftStr_length_le as
    have hlen := congrArg List.length h
    simp only [List.length_cons] at hlen
    omega

theorem trimStr_of_ends (l : Str)
    (h1 : ∀ c, l.head? = some c → c.isWhitespace = false)
    (h2 : ∀ c, l.getLast? = some c → c.isWhitespace = false) :
    trimStr l = l := by
  unfold trimStr
  rw [trimLeftStr_of_head l h1,
    trimLeftStr_of_head l.reverse (fun c hc => h2 c (by rwa [List.head?_reverse] at hc)),
    List.reverse_reverse]

theorem trimStr_head_last (l : Str) (h : trimStr l = l) :
    (∀ c, l.head? = some c → c.isWhitespace = false) ∧
    (∀ c, l.getLast? = some c → c.isWhitespace = false) := by
  have hlen1 : (trimStr l).length ≤ (trimLeftStr l).length := by
    unfold trimStr
    calc (trimLeftStr (trimLeftStr l).reverse).reverse.length
        = (trimLeftStr (trimLeftStr l).reverse).length := List.length_reverse _
      _ ≤ (trimLeftStr l).reverse.length := trimLeftStr_length_le _
      _ = (trimLeftStr l).length := List.length_reverse _
  have hlen2 := trimLeftStr_length_le l
  have hL : trimLeftStr l = l := by
    apply trimLeftStr_eq_self_of_length
    have hll : (trimStr l).length = l.length := by rw [h]
    omega
  have hR : trimLeftStr l.reverse = l.reverse := by
    have hrr : (trimLeftStr l.reverse).reverse = l := by
      unfold trimStr at h
      rwa [hL] at h
    calc trimLeftStr l.reverse = (trimLeftStr l.reverse).reverse.reverse :=
        (List.reverse_reverse _).symm
      _ = l.reverse := by rw [hrr]
  refine ⟨trimLeftStr_head_not_ws l hL, fun c hc => ?_⟩
  exact trimLeftStr_head_not_ws l.reverse hR c (by rwa [List.head?_reverse])

theorem isSuffixOf_append_self (pat x : Str) : pat.isSuffixOf (x ++ pat) = true := by
  show (pat.reverse.isPrefixOf (x ++ pat).reverse) = true
  rw [List.reverse_append, List.isPrefixOf_iff_prefix]
  exact List.prefix_append _ _

theorem trimEndMatchesFuel_not_suffix (pat l : Str) (n : Nat)
    (h : pat.isSuffixOf l = false) : trimEndMatchesFuel pat n l = l := by
  cases n with
  | zero => rfl
  | succ m => rw [trimEndMatchesFuel, if_neg (by simp [h])]

theorem trimEndMatches_append_once (pat t : Str) (hp : pat ≠ [])
    (h : pat.isSuffixOf t = false) : trimEndMatches pat (t ++ pat) = t := by
  unfold trimEndMatches
  obtain ⟨q, qs, rfl⟩ : ∃ q qs, pat = q :: qs := by
    cases pat with
    | nil => exact absurd rfl hp
    | cons q qs => exact ⟨q, qs, rfl⟩
  have hlen : (t ++ q :: qs).length = t.length + qs.length + 1 := by
    simp only [List.length_append, List.length_cons]
    omega
  rw [hlen, trimEndMatchesFuel,
    if_pos (by simp [isSuffixOf_append_self])]
  have hidx : (t ++ q :: qs).length - (q :: qs).length = t.length := by
    simp only [List.length_append, List.length_cons]
    omega
  rw [hidx, List.take_left, trimEndMatchesFuel_not_suffix _ _ _ h]

/-- C7: the Java type mapper sends the fixed scalar table to its Rust
counterparts (`String` to `&str`, `int` to `i32`, ...), maps the array
spelling `T[]` to `Vec<T>` where the element uses the owning form (so
`String[]` maps to `Vec<String>` even though scalar `String` maps to
`&str`), and passes every unrecognized clean token through unchanged
(and its array form to `Vec` of itself). -/
theorem java_type_mapper_spec :
    convert_java_type_to_rust (lit "String") = lit "&str" ∧
    convert_java_type_to_rust (lit "int") = lit "i32" ∧
    convert_java_type_to_rust (lit "long") = lit "i64" ∧
    convert_java_type_to_rust (lit "short") = lit "i16" ∧
    convert_java_type_to_rust (lit "byte") = lit "i8" ∧
    convert_java_type_to_rust (lit "boolean") = lit "bool" ∧
    convert_java_type_to_rust (lit "float") = lit "f32" ∧
    convert_java_type_to_rust (lit "double") = lit "f64" ∧
    convert_java_type_to_rust (lit "char") = lit "char" ∧
    convert_java_type_to_rust (lit "String[]") = lit "Vec<String>" ∧
    convert_java_type_to_rust (lit "int[]") = lit "Vec<i32>" ∧
    ∀ t : Str, trimStr t = t → (lit "[]").isSuffixOf t = false →
      t ∉ [lit "String", lit "int", lit "long", lit "short", lit "byte", lit "boolean",
        lit "float", lit "double", lit "char"] →
      (convert_java_type_to_rust t = t ∧
       convert_java_type_to_rust (t ++ lit "[]") = lit "Vec<" ++ t ++ lit ">") := by
  refine ⟨by decide, by decide, by decide, by decide, by decide, by decide, by decide,
    by decide, by decide, by decide, by decide, ?_⟩
  intro t h1 h2 h3
  simp only [List.mem_cons, List.not_mem_nil, or_false, not_or] at h3
  obtain ⟨n1, n2, n3, n4, n5, n6, n7, n8, n9⟩ := h3
  have hhl := trimStr_head_last t h1
  constructor
  · simp only [convert_java_type_to_rust, h1, h2, Bool.false_eq_true, if_false]
    simp [n1, n2, n3, n4, n5, n6, n7, n8, n9]
  · have htrim : trimStr (t ++ lit "[]") = t ++ lit "[]" := by
      apply trimStr_of_ends
      · intro c hc
        cases t with
        | nil =>
          rw [List.nil_append] at hc
          have h0 : c = '[' := by
            have hh : (lit "[]").head? = some '[' := rfl
            rw [hh] at hc
            exact (Option.some.inj hc).symm
          subst h0
          decide
        | cons a as =>
          rw [List.cons_append] at hc
          have h0 : a = c := by simpa using hc
          exact h0 ▸ hhl.1 a rfl
      · intro c hc
        rw [List.getLast?_append_of_ne_nil _ (show lit "[]" ≠ [] by decide)] at hc
        have h0 : c = ']' := by
          have hh : (lit "[]").getLast? = some ']' := by decide
          rw [hh] at hc
          exact (Option.some.inj hc).symm
        subst h0
        decide
    simp only [convert_java_type_to_rust, htrim, isSuffixOf_append_self, if_true]
    rw [trimEndMatches_append_once _ _ (by decide) h2, h1]
    simp [n1, n2, n3, n4, n5, n6, n7, n8, n9]

/-- C7 witness: the unrecognized clean token `MyEnum` passes through
unchanged and its array form maps to `Vec<MyEnum>`. -/
theorem java_type_mapper_spec_witness :
    convert_java_type_to_rust (lit "MyEnum") = lit "MyEnum" ∧
    convert_java_type_to_rust (lit "MyEnum[]") = lit "Vec<MyEnum>" := by
  have h := (java_type_mapper_spec.2.2.2.2.2.2.2.2.2.2.2 (lit "MyEnum")
    (by decide) (by decide) (by decide))
  exact ⟨h.1, h.2⟩

theorem alnumFact_holds : ∀ c ∈ alnumChars, alnumFactB c = true := by decide

theorem upperChars_isUpper : ∀ c ∈ upperChars, c.isUpper = true := by decide

theorem upperChars_sub_alnum : ∀ c ∈ upperChars, c ∈ alnumChars := by decide

theorem alnum_upper_facts (c : Char) (hc : c ∈ alnumChars) (hu : c.isUpper = true) :
    c.toLower.toUpper = c ∧ c.toLower ≠ '_' := by
  have h := alnumFact_holds c hc
  simp only [alnumFactB, hu, Bool.not_true, Bool.false_or, Bool.true_or, and_true,
    Bool.and_eq_true, beq_iff_eq, bne_iff_ne, ne_eq] at h
  exact h

theorem alnum_not_upper_ne_underscore (c : Char) (hc : c ∈ alnumChars)
    (hu : c.isUpper = false) : c ≠ '_' := by
  have h := alnumFact_holds c hc
  simp only [alnumFactB, hu, Bool.false_or, Bool.and_eq_true, bne_iff_ne, ne_eq] at h
  exact h.2

theorem snakeCore_split (l : Str) (h : ∀ c ∈ l, c ∈ alnumChars) :
    ∃ w ws, splitOnChar '_' (snakeCore l) = w :: ws ∧
      w ++ ((ws.map capitalizeFirst).flatten) = l := by
  induction l with
  | nil => exact ⟨[], [], rfl, rfl⟩
  | cons c cs ih =>
    obtain ⟨w, ws, hsplit, hjoin⟩ := ih (fun d hd => h d (List.mem_cons_of_mem _ hd))
    have hc := h c (List.mem_cons_self c cs)
    by_cases hu : c.isUpper = true
    · obtain ⟨hlow, hne⟩ := alnum_upper_facts c hc hu
      have hbeq : (c.toLower == '_') = false := by simpa using hne
      have hstep1 : splitOnChar '_' (c.toLower :: snakeCore cs)
          = (c.toLower :: w) :: ws := by
        show splitOnPred (fun d => d == '_') (c.toLower :: snakeCore cs) = _
        rw [splitOnPred_cons _ _ _ w ws hsplit, hbeq]
        simp
      refine ⟨[], (c.toLower :: w) :: ws, ?_, ?_⟩
      · show splitOnPred (fun d => d == '_') (snakeCore (c :: cs)) = _
        rw [show snakeCore (c :: cs) = '_' :: c.toLower :: snakeCore cs from by
          simp [snakeCore, hu]]
        rw [splitOnPred_cons _ _ _ (c.toLower :: w) ws hstep1]
        simp
      · simp only [List.map_cons, List.flatten_cons, capitalizeFirst, List.nil_append]
        rw [List.cons_append, hlow, hjoin]
    · have hu' : c.isUpper = false := by simpa using hu
      have hne := alnum_not_upper_ne_underscore c hc hu'
      have hbeq : (c == '_') = false := by simpa using hne
      refine ⟨c :: w, ws, ?_, ?_⟩
      · show splitOnPred (fun d => d == '_') (snakeCore (c :: cs)) = _
        rw [show snakeCore (c :: cs) = c :: snakeCore cs from by simp [snakeCore, hu']]
        rw [splitOnPred_cons _ _ _ w ws hsplit, hbeq]
        simp
      · rw [List.cons_append, hjoin]

/-- C9: `pascalToSnakeCase` sends `SetStatusRequest` to
`set_status_request`, `snakeToPascalCase` sends it back, and the round
trip `snakeToPascalCase (pascalToSnakeCase x) = x` holds for every
identifier made of ASCII letters and digits whose first character is an
uppercase letter. -/
theorem pascal_snake_roundtrip :
    pascal_to_snake_case (lit "SetStatusRequest") = lit "set_status_request" ∧
    to_pascal_case (lit "set_status_request") = lit "SetStatusRequest" ∧
    ∀ x : Str, (∀ c, x.head? = some c → c ∈ upperChars) → (∀ c ∈ x, c ∈ alnumChars) →
      to_pascal_case (pascal_to_snake_case x) = x := by
  refine ⟨by decide, by decide, ?_⟩
  intro x hhead hall
  cases x with
  | nil => decide
  | cons c cs =>
    have hcu : c ∈ upperChars := hhead c rfl
    have hu : c.isUpper = true := upperChars_isUpper c hcu
    have hca : c ∈ alnumChars := upperChars_sub_alnum c hcu
    obtain ⟨hlow, hne⟩ := alnum_upper_facts c hca hu
    have hbeq : (c.toLower == '_') = false := by simpa using hne
    obtain ⟨w, ws, hsplit, hjoin⟩ :=
      snakeCore_split cs (fun d hd => hall d (List.mem_cons_of_mem _ hd))
    rw [pascal_to_snake_cons, if_pos hu]
    show ((splitOnPred (fun d => d == '_')
      ([c.toLower] ++ snakeCore cs)).map capitalizeFirst).flatten = c :: cs
    rw [List.singleton_append, splitOnPred_cons _ _ _ w ws hsplit, hbeq]
    simp only [Bool.false_eq_true, if_false, List.map_cons, List.flatten_cons,
      capitalizeFirst]
    rw [List.cons_append, hlow, hjoin]

/-- C9 witness: the round trip holds at the concrete PascalCase
identifier `SetStatusRequest`. -/
theorem pascal_snake_roundtrip_witness :
    to_pascal_case (pascal_to_snake_case (lit "SetStatusRequest")) = lit "SetStatusRequest" := by
  apply pascal_snake_roundtrip.2.2 (lit "SetStatusRequest")
  · intro c hc
    have hh : (lit "SetStatusRequest").head? = some 'S' := rfl
    rw [hh] at hc
    obtain rfl : 'S' = c := Option.some.inj hc
    decide
  · decide

theorem mem_of_getLast?_eq (l : Str) (c : Char) (h : l.getLast? = some c) : c ∈ l :=
  List.mem_of_mem_getLast? (by simp [h])

theorem trimStr_of_all (l : Str) (h : ∀ c ∈ l, c.isWhitespace = false) :
    trimStr l = l := by
  apply trimStr_of_ends
  · intro c hc
    cases l with
    | nil => cases hc
    | cons a as =>
      obtain rfl : a = c := by simpa using hc
      exact h a (List.mem_cons_self a as)
  · intro c hc
    exact h c (mem_of_getLast?_eq l c hc)

theorem trimEndMatches_id (pat l : Str) (h : pat.isSuffixOf l = false) :
    trimEndMatches pat l = l :=
  trimEndMatchesFuel_not_suffix pat l l.length h

theorem isSuffixOf_singleton_of_last_ne (c : Char) (l : Str)
    (h : ∀ d, l.getLast? = some d → d ≠ c) : [c].isSuffixOf l = false := by
  show ([c].reverse.isPrefixOf l.reverse) = false
  cases hr : l.reverse with
  | nil => rfl
  | cons d ds =>
    have hd : l.getLast? = some d := by rw [← List.head?_reverse, hr]; rfl
    have hne := h d hd
    have hbeq : (c == d) = false := beq_eq_false_iff_ne.mpr (Ne.symm hne)
    simp [List.isPrefixOf, hbeq]

theorem splitOnPred_no_split (p : Char → Bool) (l : Str)
    (h : ∀ c ∈ l, p c = false) : splitOnPred p l = [l] := by
  induction l with
  | nil => rfl
  | cons c cs ih =>
    rw [splitOnPred_cons p c cs cs []
      (ih (fun d hd => h d (List.mem_cons_of_mem _ hd))), h c (List.mem_cons_self c cs)]
    simp

theorem splitOnPred_append_sep (p : Char → Bool) (a b : Str) (sep : Char)
    (ha : ∀ c ∈ a, p c = false) (hsep : p sep = true) :
    splitOnPred p (a ++ sep :: b) = a :: splitOnPred p b := by
  induction a with
  | nil =>
    rcases hb : splitOnPred p b with _ | ⟨w, ws⟩
    · exact absurd hb (splitOnPred_ne_nil p b)
    · rw [List.nil_append, splitOnPred_cons p sep b w ws hb, hsep]
      simp [hb]
  | cons c a' ih =>
    rcases hsp : splitOnPred p (a' ++ sep :: b) with _ | ⟨w, ws⟩
    · exact absurd hsp (splitOnPred_ne_nil p _)
    · rw [List.cons_append, splitOnPred_cons p c _ w ws hsp,
        ha c (List.mem_cons_self c a')]
      have heq := hsp.symm.trans (ih (fun d hd => ha d (List.mem_cons_of_mem _ hd)))
      injection heq with hw hws
      simp [hw, hws]

theorem containsSub_cons_skip (p0 : Char) (pat a b : Str) (ha : ∀ c ∈ a, c ≠ p0) :
    containsSub (p0 :: pat) (a ++ b) = containsSub (p0 :: pat) b := by
  induction a with
  | nil => rfl
  | cons c a' ih =>
    rw [List.cons_append, containsSub]
    have hbeq : (p0 == c) = false :=
      beq_eq_false_iff_ne.mpr (Ne.symm (ha c (List.mem_cons_self c a')))
    rw [show ((p0 :: pat).isPrefixOf (c :: (a' ++ b))) = false from by
      simp [List.isPrefixOf, hbeq]]
    rw [Bool.false_or, ih (fun d hd => ha d (List.mem_cons_of_mem _ hd))]

theorem cb_prefix_false (n rest : Str) (hn1 : n ≠ []) (hn2 : n ≠ lit "cb")
    (hchar : ∀ c ∈ n, c.isWhitespace = false ∧ c ≠ ',' ∧ c ≠ ':') :
    (lit "cb:").isPrefixOf (n ++ ':' :: ' ' :: rest) = false ∧
    (lit "cb :").isPrefixOf (n ++ ':' :: ' ' :: rest) = false := by
  rcases n with _ | ⟨a, as⟩
  · exact absurd rfl hn1
  rcases as with _ | ⟨b, bs⟩
  · constructor
    · simp [List.isPrefixOf, lit]
    · simp [List.isPrefixOf, lit]
  rcases bs with _ | ⟨d, ds⟩
  · constructor
    · by_cases ha : a = 'c'
      · by_cases hb : b = 'b'
        · subst ha; subst hb; exact absurd rfl hn2
        · have hbeq : ('b' == b) = false :=
            beq_eq_false_iff_ne.mpr (fun he => hb he.symm)
          simp [List.isPrefixOf, lit, hbeq]
      · have haeq : ('c' == a) = false :=
          beq_eq_false_iff_ne.mpr (fun he => ha he.symm)
        simp [List.isPrefixOf, lit, haeq]
    · simp [List.isPrefixOf, lit]
  · have hd := (hchar d (by simp)).1
    have hd2 := (hchar d (by simp)).2.2
    constructor
    · have hbeq : (':' == d) = false := beq_eq_false_iff_ne.mpr (Ne.symm hd2)
      simp [List.isPrefixOf, lit, hbeq]
    · have hdsp : d ≠ ' ' := by
        intro he
        rw [he] at hd
        simp at hd
      have hbeq : (' ' == d) = false := beq_eq_false_iff_ne.mpr (Ne.symm hdsp)
      simp [List.isPrefixOf, lit, hbeq]

set_option maxHeartbeats 1000000 in
/-- C4 (amended): for a canonical parameter `n: ty` with `ty` exactly
`ConversationType` or `DbConversationType` (and `n` a plain identifier
other than `cb`), the rename to `conv_type` is applied in the call-site
argument lists, the declaration parameter lists, the struct fields, the
constructor parameters and the field initializers — but NOT in the test
default-value definitions, the trace pairs, the sync-wrapper
call-argument list or the db-worker call list, which all keep the
original name. -/
theorem conv_type_override_spec (g : CodeGenerator) (n ty : Str)
    (hty : ty = lit "ConversationType" ∨ ty = lit "DbConversationType")
    (hn1 : n ≠ []) (hn2 : n ≠ lit "cb")
    (hchar : ∀ c ∈ n, c.isWhitespace = false ∧ c ≠ ',' ∧ c ≠ ':')
    (hg : g.function_params = n ++ lit ": " ++ ty) :
    extract_param_names g = lit "conv_type" ∧
    extract_param_names_only g = lit "conv_type" ∧
    add_ref_to_str_params g = lit "conv_type: " ++ ty ∧
    normalize_params_for_request_builder g = lit "conv_type: " ++ ty ∧
    generate_struct_fields g = lit "    conv_type: " ++ ty ++ lit "," ∧
    generate_new_params g = lit "conv_type: " ++ ty ∧
    generate_field_inits g = lit "conv_type" ∧
    generate_test_param_definitions g
      = lit "let " ++ n ++ lit ": " ++ ty ++ lit " = "
        ++ generate_default_value_for_type ty ++ lit ";" ∧
    generate_trace_params g = lit "\"" ++ n ++ lit "\": " ++ n ∧
    extract_param_names_with_ref g = n ∧
    extract_param_names_for_db_worker_call g = n := by
  have hw : n ++ lit ": " ++ ty = n ++ ':' :: ' ' :: ty := by
    rw [List.append_assoc]
    rfl
  have hparams : g.function_params = n ++ ':' :: ' ' :: ty := hg.trans hw
  have f2 : ∀ c ∈ (':' :: ' ' :: ty), (c == ',') = false := by
    rcases hty with rfl | rfl <;> decide
  have f3 : (':' :: ' ' :: ty).getLast? = some 'e' := by
    rcases hty with rfl | rfl <;> decide
  have f4 : splitOnPred (fun c => c == ':') (' ' :: ty) = [' ' :: ty] := by
    rcases hty with rfl | rfl <;> decide
  have f5 : trimStr (' ' :: ty) = ty := by
    rcases hty with rfl | rfl <;> decide
  have f6 : containsSub (':' :: lit " &str") (':' :: ' ' :: ty) = false := by
    rcases hty with rfl | rfl <;> decide
  have f7 : normalize_param_name n ty = lit "conv_type" := by
    unfold normalize_param_name
    rcases hty with rfl | rfl
    · exact if_pos (Or.inl rfl)
    · exact if_pos (Or.inr rfl)
  have f8 : trimStr ty = ty := by
    rcases hty with rfl | rfl <;> decide
  have f10 : trimEndMatches [','] ty = ty := by
    rcases hty with rfl | rfl <;> decide
  have hneString : ¬(ty = lit "String") := by
    rcases hty with rfl | rfl <;> decide
  have hneStr : ¬(ty = lit "&str") := by
    rcases hty with rfl | rfl <;> decide
  have hWne : n ++ ':' :: ' ' :: ty ≠ [] := append_ne_nil_left _ _ hn1
  have hlast : (n ++ ':' :: ' ' :: ty).getLast? = some 'e' := by
    rw [List.getLast?_append_of_ne_nil _ (show (':' :: ' ' :: ty) ≠ [] by simp)]
    exact f3
  have htrimW : trimStr (n ++ ':' :: ' ' :: ty) = n ++ ':' :: ' ' :: ty := by
    apply trimStr_of_ends
    · intro c hc
      cases n with
      | nil => exact absurd rfl hn1
      | cons a as =>
        rw [List.cons_append] at hc
        obtain rfl : a = c := by simpa using hc
        exact (hchar a (List.mem_cons_self a as)).1
    · intro d hd
      rw [hlast] at hd
      obtain rfl : 'e' = d := Option.some.inj hd
      decide
  have hsuffix : [','].isSuffixOf (n ++ ':' :: ' ' :: ty) = false := by
    apply isSuffixOf_singleton_of_last_ne
    intro d hd
    rw [hlast] at hd
    obtain rfl : 'e' = d := Option.some.inj hd
    decide
  have htrimEndW : trimEndMatches [','] (n ++ ':' :: ' ' :: ty) = n ++ ':' :: ' ' :: ty :=
    trimEndMatches_id _ _ hsuffix
  have hnocomma : ∀ c ∈ n ++ ':' :: ' ' :: ty, (c == ',') = false := by
    intro c hc
    rcases List.mem_append.mp hc with hc | hc
    · exact beq_eq_false_iff_ne.mpr (hchar c hc).2.1
    · exact f2 c hc
  have hsplitComma : splitOnChar ',' (n ++ ':' :: ' ' :: ty) = [n ++ ':' :: ' ' :: ty] :=
    splitOnPred_no_split _ _ hnocomma
  have hcbf := cb_prefix_false n ty hn1 hn2 hchar
  have hcleang : clean_params g.function_params = n ++ ':' :: ' ' :: ty := by
    rw [hparams]
    simp [clean_params, htrimW, htrimEndW, hsplitComma, hcbf.1, hcbf.2, List.filter, joinSep]
  have hsplitColon : splitOnChar ':' (n ++ ':' :: ' ' :: ty) = [n, ' ' :: ty] := by
    show splitOnPred (fun c => c == ':') (n ++ ':' :: (' ' :: ty)) = [n, ' ' :: ty]
    rw [splitOnPred_append_sep _ _ _ _
      (fun c hc => beq_eq_false_iff_ne.mpr (hchar c hc).2.2) (by decide), f4]
  have htrimn : trimStr n = n := trimStr_of_all n (fun c hc => (hchar c hc).1)
  have hmap : (splitOnChar ':' (n ++ ':' :: ' ' :: ty)).map trimStr = [n, ty] := by
    rw [hsplitColon]
    simp [htrimn, f5]
  have hcontains : containsSub (lit ": &str") (n ++ ':' :: ' ' :: ty) = false := by
    show containsSub (':' :: lit " &str") (n ++ ':' :: ' ' :: ty) = false
    exact (containsSub_cons_skip ':' (lit " &str") n (':' :: ' ' :: ty)
      (fun c hc => (hchar c hc).2.2)).trans f6
  refine ⟨?_, ?_, ?_, ?_, ?_, ?_, ?_, ?_, ?_, ?_, ?_⟩
  · simp [extract_param_names, hcleang, hsplitComma, htrimW, hWne, hmap, f8, f7, joinSep]
  · simp [extract_param_names_only, hcleang, hsplitComma, htrimW, hWne, hmap, f7, joinSep]
  · simp [add_ref_to_str_params, hcleang, hsplitComma, htrimW, hWne, hmap, f8,
      hneString, f7, joinSep]
    rfl
  · simp [normalize_params_for_request_builder, hcleang, hsplitComma, htrimW, hWne, hmap,
      f10, f8, hneString, f7, joinSep]
    rfl
  · simp [generate_struct_fields, hcleang, hsplitComma, htrimW, hWne, hmap,
      hneStr, f7, joinSep]
    rfl
  · simp [generate_new_params, hcleang, hsplitComma, htrimW, hWne, hmap, f7, joinSep]
    rfl
  · simp [generate_field_inits, hcleang, hsplitComma, htrimW, hWne, hmap, hneStr, f7,
      joinSep]
  · simp [generate_test_param_definitions, hcleang, hsplitComma, htrimW, hWne, hsplitColon,
      htrimn, f5, joinSep]
  · simp [generate_trace_params, hcleang, hsplitComma, htrimW, hWne, hsplitColon,
      htrimn, joinSep]
  · simp [extract_param_names_with_ref, hcleang, hsplitComma, htrimW, hWne,
      hcontains, hsplitColon, htrimn, joinSep]
  · simp [extract_param_names_for_db_worker_call, hcleang, hsplitComma, htrimW,
      hWne, hcontains, hsplitColon, htrimn, joinSep]

/-- C4 witness: the amended statement evaluated at the concrete
parameter `conv: ConversationType`. -/
theorem conv_type_override_spec_witness :
    extract_param_names exampleConvGen = lit "conv_type" ∧
    extract_param_names_with_ref exampleConvGen = lit "conv" := by
  have h := conv_type_override_spec exampleConvGen (lit "conv") (lit "ConversationType")
    (Or.inl rfl) (by decide) (by decide) (by decide) (by decide)
  exact ⟨h.1, h.2.2.2.2.2.2.2.2.2.1⟩

end AutoSdk
